import Mathlib

/-!
Shallow embedding of the task-management backend (FastAPI + SQLModel).

Modelling conventions:
* UUIDs and timestamps are modelled as `Nat` (only generation, equality and
  ordering matter to the verified properties).
* The database is a `List Task`; `session.add/commit/refresh/delete` become
  explicit store transformations.  The primary key makes task ids unique in
  the real store; where a proof needs nothing beyond "first match", we use
  `List.find?`, mirroring `scalar_one_or_none` on a store without duplicates.
* SQLModel table objects skip pydantic validation on attribute assignment, so
  every ORM slot can hold `None` at runtime (e.g. `setattr(task, "title",
  None)` in the update handler succeeds).  Task fields are therefore
  `Option`-typed even where the column is declared non-nullable.
* Python truthiness of an optional bool (`if task.is_completed:` /
  `not task.is_completed`) is `truthy`.
* `datetime.combine(d, time.min)` / `datetime.combine(d, time.max)` become
  `startOfDay` / `endOfDay` at one-second resolution.
* The PyJWT library is an external collaborator: its outcome for a given
  token is an explicit argument (`Except JwtError Claims`).
-/

namespace Todo

/-- `PriorityEnum` from `app/models/task.py` / `app/schemas/task.py`. -/
inductive PriorityEnum where
  | low
  | medium
  | high
deriving DecidableEq, Repr

/-- Python truthiness of an `Optional[bool]`: `None` and `False` are falsy. -/
def truthy : Option Bool → Bool
  | some b => b
  | none => false

/-- The `tasks` table row (`class Task` in `app/models/task.py`).
Columns `title`, `priority`, `is_completed` are declared non-optional, but the
ORM object slot accepts `None` via `setattr`, hence `Option` types. -/
structure Task where
  id : Nat
  user_email : String
  title : Option String
  description : Option String
  priority : Option PriorityEnum
  is_completed : Option Bool
  due_date : Option Nat
  completed_at : Option Nat
  created_at : Nat
  updated_at : Nat
deriving DecidableEq, Repr

/-- The `users` table row (`class User` in `app/models/user.py`),
restricted to the fields the verified code touches. -/
structure User where
  email : String
  username : String
  password : String
deriving DecidableEq, Repr

/-- The failure kinds of `app/core/exceptions.py` that the verified handlers
can raise, plus FastAPI's request-validation failure. -/
inductive ApiError where
  | tokenInvalid (detail : String)
  | tokenExpired (detail : String)
  | userNotFound (detail : String)
  | taskNotFound (detail : String)
  | requestValidationError
deriving DecidableEq, Repr

/-- HTTP status assigned by `app/core/exceptions.py` and
`app/core/exception_handlers.py`. -/
def statusOf : ApiError → Nat
  | .tokenInvalid _ => 401
  | .tokenExpired _ => 401
  | .userNotFound _ => 404
  | .taskNotFound _ => 404
  | .requestValidationError => 422

/-- Error `code` string assigned by `app/core/exception_handlers.py`. -/
def codeOf : ApiError → String
  | .tokenInvalid _ => "TOKEN_INVALID"
  | .tokenExpired _ => "TOKEN_EXPIRED"
  | .userNotFound _ => "USER_NOT_FOUND"
  | .taskNotFound _ => "TASK_NOT_FOUND"
  | .requestValidationError => "REQUEST_VALIDATION_ERROR"

/-- Detail message of `TaskNotFoundException` raised in `app/api/v1/tasks.py`. -/
def taskNotFoundDetail (task_id : Nat) : String :=
  "Task with id " ++ toString task_id ++ " not found"

/-- Decoded JWT claims; `payload.get("email")` yields `none` when the claim is
absent or null. -/
structure Claims where
  email : Option String
deriving DecidableEq, Repr

/-- Outcomes of the external PyJWT `jwt.decode` call. -/
inductive JwtError where
  | expiredSignature
  | otherPyJwtError
deriving DecidableEq, Repr

/-- `decode_jwt` from `app/core/security.py`: maps PyJWT failures to the
repo's exception taxonomy. -/
def decode_jwt (decoded : Except JwtError Claims) : Except ApiError Claims :=
  match decoded with
  | .ok payload => .ok payload
  | .error .expiredSignature => .error (.tokenExpired "Token has expired")
  | .error .otherPyJwtError => .error (.tokenInvalid "Could not validate credentials")

/-- `extract_user_from_token` from `app/core/security.py`. -/
def extract_user_from_token (decoded : Except JwtError Claims) : Except ApiError String :=
  match decode_jwt decoded with
  | .error e => .error e
  | .ok payload =>
    match payload.email with
    | none => .error (.tokenInvalid "Could not validate credentials")
    | some user_email => .ok user_email

/-- `get_current_user` from `app/core/dependencies.py`: extracts the email and
verifies the user exists in the database. -/
def get_current_user (users : List User) (decoded : Except JwtError Claims) :
    Except ApiError String :=
  match extract_user_from_token decoded with
  | .error e => .error e
  | .ok user_email =>
    match users.find? (fun u => u.email == user_email) with
    | none => .error (.userNotFound "User not found")
    | some _ => .ok user_email

/-- `TaskCreate` from `app/schemas/task.py` after pydantic validation. -/
structure TaskCreate where
  title : String
  description : Option String
  priority : Option PriorityEnum
  due_date : Option Nat
deriving DecidableEq, Repr

/-- A raw create request body before validation.  The outer `Option` is field
presence in the JSON object, the inner one is a JSON null.  `user_email` is an
extra key a caller might send; `TaskCreate` has no such field and pydantic
ignores unknown keys. -/
structure TaskCreatePayload where
  title : Option (Option String)
  description : Option (Option String)
  priority : Option (Option PriorityEnum)
  due_date : Option (Option Nat)
  user_email : Option String
deriving DecidableEq, Repr

/-- Pydantic validation of `TaskCreate`: `title: str` is required and
non-null, with no length constraint; `description`/`due_date` default to
`None`; `priority` defaults to `medium` when the key is absent.  The extra
`user_email` key is dropped. -/
def validateTaskCreate (p : TaskCreatePayload) : Except ApiError TaskCreate :=
  match p.title with
  | some (some t) =>
      .ok { title := t
            description := p.description.join
            priority := p.priority.getD (some PriorityEnum.medium)
            due_date := p.due_date.join }
  | _ => .error .requestValidationError

/-- `TaskUpdate` from `app/schemas/task.py` with pydantic field-set tracking:
the outer `Option` is presence in the payload (`exclude_unset`), the inner one
the value, which may itself be a JSON null. -/
structure TaskUpdate where
  title : Option (Option String)
  description : Option (Option String)
  priority : Option (Option PriorityEnum)
  due_date : Option (Option Nat)
  is_completed : Option (Option Bool)
deriving DecidableEq, Repr

/-- `TaskListResponse` from `app/schemas/task.py`. -/
structure TaskListResponse where
  tasks : List Task
  total_count : Nat
  page : Int
  page_size : Int
deriving DecidableEq, Repr

/-- The ownership-scoped lookup shared by the get/update/delete/toggle
handlers:
`select(Task).where(Task.id == task_id, Task.user_email == current_user)`
followed by `scalar_one_or_none()`. -/
def findTask (store : List Task) (task_id : Nat) (current_user : String) : Option Task :=
  store.find? (fun t => t.id == task_id && t.user_email == current_user)

/-- `create_task` handler (`POST /tasks/` in `app/api/v1/tasks.py`) plus the
column defaults of `app/models/task.py`.  `fresh_id` is the value produced by
the `uuid.uuid4` default factory and `now` the `get_utc_now` stamp. -/
def create_task (store : List Task) (current_user : String) (task_data : TaskCreate)
    (fresh_id : Nat) (now : Nat) : List Task × Task :=
  let task : Task :=
    { id := fresh_id
      user_email := current_user
      title := some task_data.title
      description := task_data.description
      priority := task_data.priority
      is_completed := some false
      due_date := task_data.due_date
      completed_at := none
      created_at := now
      updated_at := now }
  (store ++ [task], task)

/-- Start of day used by the `date_from` filter
(`datetime.combine(date_from, datetime.min.time())`), in seconds. -/
def startOfDay (d : Nat) : Nat := d * 86400

/-- End of day used by the `date_to` filter
(`datetime.combine(date_to, datetime.max.time())`), in seconds. -/
def endOfDay (d : Nat) : Nat := d * 86400 + 86399

/-- The where-clauses of `list_tasks`.  The handler builds the same four
optional conditions twice, once for the page query and once for the count
query; both are this predicate conjoined with the ownership scope. -/
def listFilter (current_user : String) (completed : Option Bool)
    (priority : Option PriorityEnum) (date_from date_to : Option Nat)
    (t : Task) : Bool :=
  t.user_email == current_user
  && (match completed with
      | none => true
      | some c => t.is_completed == some c)
  && (match priority with
      | none => true
      | some p => t.priority == some p)
  && (match date_from with
      | none => true
      | some d => startOfDay d ≤ t.created_at)
  && (match date_to with
      | none => true
      | some d => t.created_at ≤ endOfDay d)

/-- The pagination offset computed by the handler:
`offset = (page - 1) * page_size`, on unconstrained Python ints. -/
def list_offset (page page_size : Int) : Int := (page - 1) * page_size

/-- `OFFSET`/`LIMIT` applied by the store to a query result.  Negative values
are clamped at zero (SQLite treats a negative `OFFSET` as zero; negative
`LIMIT` behaviour is engine-specific and unreachable from the verified
properties). -/
def sqlSlice (l : List Task) (offset limit : Int) : List Task :=
  (l.drop offset.toNat).take limit.toNat

/-- `list_tasks` handler (`GET /tasks/` in `app/api/v1/tasks.py`): one
filtered query with offset/limit for the page, a second identically filtered
query without pagination for `total_count`. -/
def list_tasks (store : List Task) (current_user : String) (completed : Option Bool)
    (priority : Option PriorityEnum) (date_from date_to : Option Nat)
    (page page_size : Int) : TaskListResponse :=
  let filtered := store.filter (listFilter current_user completed priority date_from date_to)
  let page_tasks := sqlSlice filtered (list_offset page page_size) page_size
  let counted := store.filter (listFilter current_user completed priority date_from date_to)
  { tasks := page_tasks
    total_count := counted.length
    page := page
    page_size := page_size }

/-- `get_task` handler (`GET /tasks/{task_id}`). -/
def get_task (store : List Task) (task_id : Nat) (current_user : String) :
    Except ApiError Task :=
  match findTask store task_id current_user with
  | none => .error (.taskNotFound (taskNotFoundDetail task_id))
  | some task => .ok task

/-- The `setattr` loop of `update_task` over
`task_data.dict(exclude_unset=True)`: fields present in the payload are
assigned (a present null is assigned as `None`), absent fields are untouched. -/
def applyUpdate (t : Task) (d : TaskUpdate) : Task :=
  { t with
    title := d.title.getD t.title
    description := d.description.getD t.description
    priority := d.priority.getD t.priority
    due_date := d.due_date.getD t.due_date
    is_completed := d.is_completed.getD t.is_completed }

/-- Committing a mutation of the row found by `(task_id, current_user)`:
the matching row is replaced, every other row is untouched. -/
def storeReplace (store : List Task) (task_id : Nat) (current_user : String)
    (t2 : Task) : List Task :=
  store.map (fun t => if t.id == task_id && t.user_email == current_user then t2 else t)

/-- `update_task` handler (`PUT /tasks/{task_id}`): ownership-scoped lookup,
apply the explicitly-set fields, refresh `updated_at`, commit. -/
def update_task (store : List Task) (task_id : Nat) (task_data : TaskUpdate)
    (current_user : String) (now : Nat) : Except ApiError (List Task × Task) :=
  match findTask store task_id current_user with
  | none => .error (.taskNotFound (taskNotFoundDetail task_id))
  | some task =>
      let task2 := { applyUpdate task task_data with updated_at := now }
      .ok (storeReplace store task_id current_user task2, task2)

/-- `delete_task` handler (`DELETE /tasks/{task_id}`): ownership-scoped
lookup, hard delete, success message. -/
def delete_task (store : List Task) (task_id : Nat) (current_user : String) :
    Except ApiError (List Task × Bool × String) :=
  match findTask store task_id current_user with
  | none => .error (.taskNotFound (taskNotFoundDetail task_id))
  | some _ =>
      .ok (store.filter (fun t => !(t.id == task_id && t.user_email == current_user)),
           true, "Task deleted successfully")

/-- `toggle_task_completion` handler (`PATCH /tasks/{task_id}/complete`):
flips `is_completed` (Python `not` on the optional bool), stamps or clears
`completed_at`, refreshes `updated_at`, commits. -/
def toggle_task_completion (store : List Task) (task_id : Nat)
    (current_user : String) (now : Nat) : Except ApiError (List Task × Task) :=
  match findTask store task_id current_user with
  | none => .error (.taskNotFound (taskNotFoundDetail task_id))
  | some task =>
      let flag := !(truthy task.is_completed)
      let task2 := { task with
                     is_completed := some flag
                     completed_at := if flag then some now else none
                     updated_at := now }
      .ok (storeReplace store task_id current_user task2, task2)

/-- Two successive toggle requests on the same task id by the same user, at
times `n1` and then `n2`; returns the task as of the second response. -/
def toggleTwice (store : List Task) (task_id : Nat) (current_user : String)
    (n1 n2 : Nat) : Except ApiError Task :=
  match toggle_task_completion store task_id current_user n1 with
  | .error e => .error e
  | .ok (store1, _) =>
    match toggle_task_completion store1 task_id current_user n2 with
    | .error e => .error e
    | .ok (_, task2) => .ok task2

/-- The completion invariant claimed by the spec:
`completed_at` is non-null iff `is_completed` is true. -/
def ccInvariant (t : Task) : Bool :=
  t.completed_at.isSome == (t.is_completed == some true)

/-! Helper lemmas about the ownership-scoped lookup and the commit
operations. -/

theorem findTask_id_owner {store : List Task} {X : Nat} {I : String} {t : Task}
    (h : findTask store X I = some t) : t.id = X ∧ t.user_email = I := by
  have h' : store.find? (fun t => t.id == X && t.user_email == I) = some t := h
  have hp := List.find?_some h'
  simpa using hp

theorem findTask_eq_none {store : List Task} {X : Nat} {I : String}
    (h : ∀ t ∈ store, ¬(t.id = X ∧ t.user_email = I)) : findTask store X I = none := by
  refine List.find?_eq_none.mpr ?_
  intro t ht hc
  simp only [Bool.and_eq_true, beq_iff_eq] at hc
  exact h t ht hc

theorem findTask_storeReplace {store : List Task} {X : Nat} {I : String} {t t2 : Task}
    (h : findTask store X I = some t) (h2 : t2.id = X) (h3 : t2.user_email = I) :
    findTask (storeReplace store X I t2) X I = some t2 := by
  induction store with
  | nil => simp [findTask, List.find?] at h
  | cons a l ih =>
    have hcons : storeReplace (a :: l) X I t2
        = (if a.id == X && a.user_email == I then t2 else a) :: storeReplace l X I t2 := rfl
    rw [hcons]
    cases hc : (a.id == X && a.user_email == I) with
    | true =>
      rw [if_pos rfl]
      show List.find? (fun t => t.id == X && t.user_email == I)
          (t2 :: storeReplace l X I t2) = some t2
      rw [List.find?_cons]
      have hp : (t2.id == X && t2.user_email == I) = true := by simp [h2, h3]
      rw [hp]
    | false =>
      have hne : ¬(false = true) := by simp
      have h' : findTask l X I = some t := by
        have hh := h
        simp only [findTask] at hh
        rw [List.find?_cons, hc] at hh
        exact hh
      rw [if_neg hne]
      show List.find? (fun t => t.id == X && t.user_email == I)
          (a :: storeReplace l X I t2) = some t2
      rw [List.find?_cons, hc]
      exact ih h'

theorem filter_storeReplace {store : List Task} {X : Nat} {I : String} {t2 : Task}
    (h : t2.user_email = I) :
    (storeReplace store X I t2).filter (fun s => !(s.user_email == I))
      = store.filter (fun s => !(s.user_email == I)) := by
  induction store with
  | nil => rfl
  | cons a l ih =>
    have hcons : storeReplace (a :: l) X I t2
        = (if a.id == X && a.user_email == I then t2 else a) :: storeReplace l X I t2 := rfl
    rw [hcons]
    cases hc : (a.id == X && a.user_email == I) with
    | true =>
      have ha : a.user_email = I := by
        simp only [Bool.and_eq_true, beq_iff_eq] at hc
        exact hc.2
      rw [if_pos rfl, List.filter_cons, List.filter_cons]
      have hpt2 : (!(t2.user_email == I)) = false := by simp [h]
      have hpa : (!(a.user_email == I)) = false := by simp [ha]
      rw [hpt2, hpa]
      simp only [Bool.false_eq_true, if_false]
      exact ih
    | false =>
      have hne : ¬(false = true) := by simp
      rw [if_neg hne, List.filter_cons, List.filter_cons, ih]

theorem filter_filter_delete (store : List Task) (X : Nat) (I : String) :
    (store.filter (fun t => !(t.id == X && t.user_email == I))).filter
        (fun s => !(s.user_email == I))
      = store.filter (fun s => !(s.user_email == I)) := by
  rw [List.filter_filter]
  apply List.filter_congr
  intro a _
  cases h1 : (a.user_email == I) <;> cases h2 : (a.id == X) <;> simp [h1, h2]

theorem mem_list_tasks_owner {store : List Task} {I : String} {c : Option Bool}
    {p : Option PriorityEnum} {df dt : Option Nat} {pg ps : Int} {t : Task}
    (h : t ∈ (list_tasks store I c p df dt pg ps).tasks) : t.user_email = I := by
  simp only [list_tasks, sqlSlice] at h
  have h1 : t ∈ store.filter (listFilter I c p df dt) :=
    List.mem_of_mem_drop (List.mem_of_mem_take h)
  have h2 := (List.mem_filter.mp h1).2
  simp only [listFilter, Bool.and_eq_true, beq_iff_eq] at h2
  exact h2.1.1.1.1

/-- C1: if no task with id `X` owned by identity `I` exists — whether no task
with that id exists at all or it is owned by a different user — then get,
update, delete and toggle invoked as `I` all fail with `TaskNotFound`
(HTTP 404, code TASK_NOT_FOUND); and no operation returns or mutates a task
owned by a user other than `I`: get/list only return tasks owned by `I`, and
update/delete/toggle leave the rows of every other user untouched. -/
theorem ownership_scoped_not_found (store : List Task) (X : Nat) (I : String)
    (d : TaskUpdate) (now : Nat) (c : Option Bool) (p : Option PriorityEnum)
    (df dt : Option Nat) (pg ps : Int) :
    ((∀ t ∈ store, ¬(t.id = X ∧ t.user_email = I)) →
      get_task store X I = .error (.taskNotFound (taskNotFoundDetail X)) ∧
      update_task store X d I now = .error (.taskNotFound (taskNotFoundDetail X)) ∧
      delete_task store X I = .error (.taskNotFound (taskNotFoundDetail X)) ∧
      toggle_task_completion store X I now
        = .error (.taskNotFound (taskNotFoundDetail X))) ∧
    statusOf (.taskNotFound (taskNotFoundDetail X)) = 404 ∧
    codeOf (.taskNotFound (taskNotFoundDetail X)) = "TASK_NOT_FOUND" ∧
    (∀ t, get_task store X I = .ok t → t.user_email = I) ∧
    (∀ t, t ∈ (list_tasks store I c p df dt pg ps).tasks → t.user_email = I) ∧
    (∀ store' t', update_task store X d I now = .ok (store', t') →
      t'.user_email = I ∧
      store'.filter (fun s => !(s.user_email == I))
        = store.filter (fun s => !(s.user_email == I))) ∧
    (∀ store' sflag msg, delete_task store X I = .ok (store', sflag, msg) →
      store'.filter (fun s => !(s.user_email == I))
        = store.filter (fun s => !(s.user_email == I))) ∧
    (∀ store' t', toggle_task_completion store X I now = .ok (store', t') →
      t'.user_email = I ∧
      store'.filter (fun s => !(s.user_email == I))
        = store.filter (fun s => !(s.user_email == I))) := by
  refine ⟨?_, rfl, rfl, ?_, ?_, ?_, ?_, ?_⟩
  · intro h
    have hn := findTask_eq_none h
    exact ⟨by simp [get_task, hn], by simp [update_task, hn],
           by simp [delete_task, hn], by simp [toggle_task_completion, hn]⟩
  · intro t ht
    cases hf : findTask store X I with
    | none => simp [get_task, hf] at ht
    | some u =>
      simp only [get_task, hf, Except.ok.injEq] at ht
      subst ht
      exact (findTask_id_owner hf).2
  · intro t ht
    exact mem_list_tasks_owner ht
  · intro store' t' hu
    cases hf : findTask store X I with
    | none => simp [update_task, hf] at hu
    | some u =>
      simp only [update_task, hf, Except.ok.injEq, Prod.mk.injEq] at hu
      obtain ⟨hs, ht⟩ := hu
      have ho := (findTask_id_owner hf).2
      constructor
      · rw [← ht]
        exact ho
      · rw [← hs]
        exact filter_storeReplace ho
  · intro store' sflag msg hd
    cases hf : findTask store X I with
    | none => simp [delete_task, hf] at hd
    | some u =>
      simp only [delete_task, hf, Except.ok.injEq, Prod.mk.injEq] at hd
      rw [← hd.1]
      exact filter_filter_delete store X I
  · intro store' t' htg
    cases hf : findTask store X I with
    | none => simp [toggle_task_completion, hf] at htg
    | some u =>
      simp only [toggle_task_completion, hf, Except.ok.injEq, Prod.mk.injEq] at htg
      obtain ⟨hs, ht⟩ := htg
      have ho := (findTask_id_owner hf).2
      constructor
      · rw [← ht]
        exact ho
      · rw [← hs]
        exact filter_storeReplace ho

/-- Witness for C1: a store holding only bob's task id 1; alice's get fails
with TaskNotFound. -/
theorem ownership_scoped_not_found_witness :
    get_task [{ id := 1, user_email := "bob@example.com", title := some "T",
                description := none, priority := some PriorityEnum.medium,
                is_completed := some false, due_date := none, completed_at := none,
                created_at := 0, updated_at := 0 }] 1 "alice@example.com"
      = .error (.taskNotFound (taskNotFoundDetail 1)) :=
  ((ownership_scoped_not_found
      [{ id := 1, user_email := "bob@example.com", title := some "T",
         description := none, priority := some PriorityEnum.medium,
         is_completed := some false, due_date := none, completed_at := none,
         created_at := 0, updated_at := 0 }] 1 "alice@example.com"
      ⟨none, none, none, none, none⟩ 0 none none none none 1 20).1
    (by decide)).1

/-- C7: identity resolution fails with TokenInvalid when the decoded claims
hold no email claim; fails with UserNotFound when the email matches no user
row; propagates the token codec's Expired/Invalid failures unchanged; and
otherwise returns the email as the effective identity. -/
theorem identity_resolution (users : List User) (payload : Claims)
    (decoded : Except JwtError Claims) (e : ApiError) (em : String) :
    (payload.email = none →
      get_current_user users (.ok payload)
        = .error (.tokenInvalid "Could not validate credentials")) ∧
    (payload.email = some em → (∀ u ∈ users, u.email ≠ em) →
      get_current_user users (.ok payload)
        = .error (.userNotFound "User not found")) ∧
    (decode_jwt decoded = .error e →
      get_current_user users decoded = .error e) ∧
    (payload.email = some em → (∃ u ∈ users, u.email = em) →
      get_current_user users (.ok payload) = .ok em) := by
  refine ⟨?_, ?_, ?_, ?_⟩
  · intro h
    simp [get_current_user, extract_user_from_token, decode_jwt, h]
  · intro h hu
    have hn : users.find? (fun u => u.email == em) = none := by
      refine List.find?_eq_none.mpr ?_
      intro u humem hc
      exact hu u humem (by simpa using hc)
    simp [get_current_user, extract_user_from_token, decode_jwt, h, hn]
  · intro h
    cases decoded with
    | ok q => simp [decode_jwt] at h
    | error je =>
      cases je <;>
        simp_all [decode_jwt, get_current_user, extract_user_from_token]
  · intro h hex
    have hs : (users.find? (fun u => u.email == em)).isSome = true := by
      refine List.find?_isSome.mpr ?_
      obtain ⟨u, humem, hue⟩ := hex
      exact ⟨u, humem, by simpa using hue⟩
    cases hn : users.find? (fun u => u.email == em) with
    | none => rw [hn] at hs; simp at hs
    | some u => simp [get_current_user, extract_user_from_token, decode_jwt, h, hn]

/-- Witness for C7: a store holding only bob; resolving a token whose claims
name alice fails with UserNotFound. -/
theorem identity_resolution_witness :
    get_current_user [{ email := "bob@example.com", username := "bob", password := "pw" }]
        (.ok { email := some "alice@example.com" })
      = .error (.userNotFound "User not found") :=
  (identity_resolution
      [{ email := "bob@example.com", username := "bob", password := "pw" }]
      { email := some "alice@example.com" } (.ok { email := some "alice@example.com" })
      (.tokenExpired "Token has expired") "alice@example.com").2.1 rfl (by decide)

/-- C2 fails as stated: the update handler applies an `is_completed` present
in the payload verbatim and never touches `completed_at`, so updating a fresh
incomplete task with `is_completed: true` yields a task that is completed yet
has a null `completed_at`. -/
theorem completion_invariant_counterexample :
    update_task
        [{ id := 1, user_email := "alice@example.com", title := some "T",
           description := none, priority := some PriorityEnum.medium,
           is_completed := some false, due_date := none, completed_at := none,
           created_at := 0, updated_at := 0 }]
        1 { title := none, description := none, priority := none, due_date := none,
            is_completed := some (some true) } "alice@example.com" 5
      = .ok ([{ id := 1, user_email := "alice@example.com", title := some "T",
                description := none, priority := some PriorityEnum.medium,
                is_completed := some true, due_date := none, completed_at := none,
                created_at := 0, updated_at := 5 }],
             { id := 1, user_email := "alice@example.com", title := some "T",
               description := none, priority := some PriorityEnum.medium,
               is_completed := some true, due_date := none, completed_at := none,
               created_at := 0, updated_at := 5 }) ∧
    ccInvariant { id := 1, user_email := "alice@example.com", title := some "T",
                  description := none, priority := some PriorityEnum.medium,
                  is_completed := some true, due_date := none, completed_at := none,
                  created_at := 0, updated_at := 5 } = false :=
  ⟨rfl, rfl⟩

/-- C2 (amended): `completed_at` is non-null iff `is_completed` is true after
every successful create and toggleCompletion, and after every successful
update whose payload does not include `is_completed` (starting from a task
satisfying the invariant); an update payload containing `is_completed` can
violate the invariant because update never adjusts `completed_at`. -/
theorem completion_invariant_amended (store : List Task) (I : String) (X : Nat)
    (d : TaskUpdate) (tc : TaskCreate) (fid now : Nat) :
    ccInvariant (create_task store I tc fid now).2 = true ∧
    (∀ store' t', toggle_task_completion store X I now = .ok (store', t') →
      ccInvariant t' = true) ∧
    (∀ t store' t', d.is_completed = none → findTask store X I = some t →
      ccInvariant t = true → update_task store X d I now = .ok (store', t') →
      ccInvariant t' = true) := by
  refine ⟨rfl, ?_, ?_⟩
  · intro store' t' h
    cases hf : findTask store X I with
    | none => simp [toggle_task_completion, hf] at h
    | some u =>
      simp only [toggle_task_completion, hf, Except.ok.injEq, Prod.mk.injEq] at h
      obtain ⟨_, ht⟩ := h
      rw [← ht]
      cases h2 : truthy u.is_completed <;> simp [ccInvariant, h2]
  · intro t store' t' hnone hf hinv h
    simp only [update_task, hf, Except.ok.injEq, Prod.mk.injEq] at h
    obtain ⟨_, ht⟩ := h
    rw [← ht]
    simpa [ccInvariant, applyUpdate, hnone] using hinv

/-- Witness for C2 (amended): toggling alice's fresh incomplete task marks it
completed with a timestamp, satisfying the invariant. -/
theorem completion_invariant_amended_witness :
    ccInvariant { id := 1, user_email := "alice@example.com", title := some "T",
                  description := none, priority := some PriorityEnum.medium,
                  is_completed := some true, due_date := none,
                  completed_at := some 5, created_at := 0, updated_at := 5 } = true :=
  (completion_invariant_amended
      [{ id := 1, user_email := "alice@example.com", title := some "T",
         description := none, priority := some PriorityEnum.medium,
         is_completed := some false, due_date := none, completed_at := none,
         created_at := 0, updated_at := 0 }]
      "alice@example.com" 1
      { title := none, description := none, priority := none, due_date := none,
        is_completed := none }
      { title := "T", description := none, priority := some PriorityEnum.medium,
        due_date := none } 1 5).2.1
    [{ id := 1, user_email := "alice@example.com", title := some "T",
       description := none, priority := some PriorityEnum.medium,
       is_completed := some true, due_date := none, completed_at := some 5,
       created_at := 0, updated_at := 5 }]
    { id := 1, user_email := "alice@example.com", title := some "T",
      description := none, priority := some PriorityEnum.medium,
      is_completed := some true, due_date := none, completed_at := some 5,
      created_at := 0, updated_at := 5 }
    rfl

/-- C3: update applies exactly the fields explicitly present in the payload,
leaves every absent field unchanged, always refreshes `updated_at`, and never
changes the task's id or owner. -/
theorem update_frame (store : List Task) (X : Nat) (d : TaskUpdate) (I : String)
    (now : Nat) (t : Task) (store' : List Task) (t' : Task)
    (hf : findTask store X I = some t)
    (hu : update_task store X d I now = .ok (store', t')) :
    (d.title = none → t'.title = t.title) ∧
    (∀ v, d.title = some v → t'.title = v) ∧
    (d.description = none → t'.description = t.description) ∧
    (∀ v, d.description = some v → t'.description = v) ∧
    (d.priority = none → t'.priority = t.priority) ∧
    (∀ v, d.priority = some v → t'.priority = v) ∧
    (d.due_date = none → t'.due_date = t.due_date) ∧
    (∀ v, d.due_date = some v → t'.due_date = v) ∧
    (d.is_completed = none → t'.is_completed = t.is_completed) ∧
    (∀ v, d.is_completed = some v → t'.is_completed = v) ∧
    t'.updated_at = now ∧
    t'.id = t.id ∧
    t'.user_email = t.user_email ∧
    t'.created_at = t.created_at ∧
    t'.completed_at = t.completed_at := by
  simp only [update_task, hf, Except.ok.injEq, Prod.mk.injEq] at hu
  obtain ⟨_, ht⟩ := hu
  subst ht
  exact ⟨fun h => by simp [applyUpdate, h], fun v h => by simp [applyUpdate, h],
         fun h => by simp [applyUpdate, h], fun v h => by simp [applyUpdate, h],
         fun h => by simp [applyUpdate, h], fun v h => by simp [applyUpdate, h],
         fun h => by simp [applyUpdate, h], fun v h => by simp [applyUpdate, h],
         fun h => by simp [applyUpdate, h], fun v h => by simp [applyUpdate, h],
         rfl, rfl, rfl, rfl, rfl⟩

/-- Witness for C3: updating only the title of alice's task leaves its
description unchanged. -/
theorem update_frame_witness :
    ({ id := 1, user_email := "alice@example.com", title := some "New",
       description := some "keep me", priority := some PriorityEnum.medium,
       is_completed := some false, due_date := none, completed_at := none,
       created_at := 0, updated_at := 7 } : Task).description
      = ({ id := 1, user_email := "alice@example.com", title := some "Old",
           description := some "keep me", priority := some PriorityEnum.medium,
           is_completed := some false, due_date := none, completed_at := none,
           created_at := 0, updated_at := 0 } : Task).description :=
  (update_frame
      [{ id := 1, user_email := "alice@example.com", title := some "Old",
         description := some "keep me", priority := some PriorityEnum.medium,
         is_completed := some false, due_date := none, completed_at := none,
         created_at := 0, updated_at := 0 }]
      1 { title := some (some "New"), description := none, priority := none,
          due_date := none, is_completed := none }
      "alice@example.com" 7
      { id := 1, user_email := "alice@example.com", title := some "Old",
        description := some "keep me", priority := some PriorityEnum.medium,
        is_completed := some false, due_date := none, completed_at := none,
        created_at := 0, updated_at := 0 }
      [{ id := 1, user_email := "alice@example.com", title := some "New",
         description := some "keep me", priority := some PriorityEnum.medium,
         is_completed := some false, due_date := none, completed_at := none,
         created_at := 0, updated_at := 7 }]
      { id := 1, user_email := "alice@example.com", title := some "New",
        description := some "keep me", priority := some PriorityEnum.medium,
        is_completed := some false, due_date := none, completed_at := none,
        created_at := 0, updated_at := 7 }
      rfl rfl).2.2.1 rfl

/-- C4 fails as stated: for a task that is already completed, toggling twice
sets `completed_at` to the time of the second toggle, not back to its
original value. -/
theorem toggle_twice_counterexample :
    toggleTwice
        [{ id := 1, user_email := "alice@example.com", title := some "T",
           description := none, priority := some PriorityEnum.medium,
           is_completed := some true, due_date := none, completed_at := some 5,
           created_at := 0, updated_at := 0 }]
        1 "alice@example.com" 6 7
      = .ok { id := 1, user_email := "alice@example.com", title := some "T",
              description := none, priority := some PriorityEnum.medium,
              is_completed := some true, due_date := none, completed_at := some 7,
              created_at := 0, updated_at := 7 } ∧
    ¬ (some 7 : Option Nat) = some 5 :=
  ⟨rfl, by decide⟩

/-- C4 (amended): a single toggle flips `is_completed`, stamps `completed_at`
with the current time when the flag becomes true and clears it when it
becomes false.  Toggling twice restores `is_completed`; it restores
`completed_at` exactly for a task that started incomplete with `completed_at`
absent, while a task that started completed ends with `completed_at` equal to
the second toggle's time. -/
theorem toggle_twice_amended (store : List Task) (X : Nat) (I : String)
    (n1 n2 : Nat) (t : Task) (hf : findTask store X I = some t) :
    (t.is_completed = some false → t.completed_at = none →
      toggleTwice store X I n1 n2
        = .ok { t with is_completed := some false, completed_at := none,
                       updated_at := n2 }) ∧
    (t.is_completed = some true →
      toggleTwice store X I n1 n2
        = .ok { t with is_completed := some true, completed_at := some n2,
                       updated_at := n2 }) := by
  have hio := findTask_id_owner hf
  constructor
  · intro hc _
    have hf1 : findTask (storeReplace store X I
        { t with is_completed := some true, completed_at := some n1,
                 updated_at := n1 }) X I
        = some { t with is_completed := some true, completed_at := some n1,
                        updated_at := n1 } :=
      findTask_storeReplace hf hio.1 hio.2
    simp [toggleTwice, toggle_task_completion, hf, hc, truthy, hf1]
  · intro hc
    have hf1 : findTask (storeReplace store X I
        { t with is_completed := some false, completed_at := none,
                 updated_at := n1 }) X I
        = some { t with is_completed := some false, completed_at := none,
                        updated_at := n1 } :=
      findTask_storeReplace hf hio.1 hio.2
    simp [toggleTwice, toggle_task_completion, hf, hc, truthy, hf1]

/-- Witness for C4 (amended): double-toggling alice's incomplete task at times
3 and 9 restores the incomplete state with `completed_at` absent. -/
theorem toggle_twice_amended_witness :
    toggleTwice
        [{ id := 1, user_email := "alice@example.com", title := some "T",
           description := none, priority := some PriorityEnum.medium,
           is_completed := some false, due_date := none, completed_at := none,
           created_at := 0, updated_at := 0 }]
        1 "alice@example.com" 3 9
      = .ok { id := 1, user_email := "alice@example.com", title := some "T",
              description := none, priority := some PriorityEnum.medium,
              is_completed := some false, due_date := none, completed_at := none,
              created_at := 0, updated_at := 9 } :=
  (toggle_twice_amended
      [{ id := 1, user_email := "alice@example.com", title := some "T",
         description := none, priority := some PriorityEnum.medium,
         is_completed := some false, due_date := none, completed_at := none,
         created_at := 0, updated_at := 0 }]
      1 "alice@example.com" 3 9
      { id := 1, user_email := "alice@example.com", title := some "T",
        description := none, priority := some PriorityEnum.medium,
        is_completed := some false, due_date := none, completed_at := none,
        created_at := 0, updated_at := 0 }
      rfl).1 rfl rfl

/-- C5: for every create request body (including one carrying an owner-like
`user_email` key, which the schema drops), the stored task's owner is the
authenticating identity, its id is the freshly generated one, priority
defaults to medium when unspecified, `is_completed` is false, and
`created_at`/`updated_at` are stamped with the current time; the new row is
appended to the store. -/
theorem create_owner_identity (store : List Task) (p : TaskCreatePayload)
    (I : String) (fid now : Nat) (d : TaskCreate)
    (hv : validateTaskCreate p = .ok d) :
    ((create_task store I d fid now).2).user_email = I ∧
    ((create_task store I d fid now).2).id = fid ∧
    (p.priority = none →
      ((create_task store I d fid now).2).priority = some PriorityEnum.medium) ∧
    ((create_task store I d fid now).2).is_completed = some false ∧
    ((create_task store I d fid now).2).created_at = now ∧
    ((create_task store I d fid now).2).updated_at = now ∧
    (create_task store I d fid now).1 = store ++ [(create_task store I d fid now).2] := by
  rcases hpt : p.title with _ | ⟨_ | s⟩
  · simp [validateTaskCreate, hpt] at hv
  · simp [validateTaskCreate, hpt] at hv
  · simp only [validateTaskCreate, hpt, Except.ok.injEq] at hv
    subst hv
    exact ⟨rfl, rfl, fun h => by simp [create_task, h], rfl, rfl, rfl, rfl⟩

/-- Witness for C5: a request body carrying `user_email: mallory` still yields
a task owned by the authenticated alice. -/
theorem create_owner_identity_witness :
    ((create_task [] "alice@example.com"
        { title := "Hi", description := none,
          priority := some PriorityEnum.medium, due_date := none }
        42 9).2).user_email = "alice@example.com" :=
  (create_owner_identity []
    { title := some (some "Hi"), description := none, priority := none,
      due_date := none, user_email := some "mallory@example.com" }
    "alice@example.com" 42 9
    { title := "Hi", description := none, priority := some PriorityEnum.medium,
      due_date := none } rfl).1

/-- C6: `total_count` equals the size of the filtered set before pagination,
a value independent of `page`/`page_size`, and a page whose offset lies at or
past the end of the filtered set yields an empty `tasks` list with the same
`total_count`. -/
theorem pagination_total_count (store : List Task) (I : String) (c : Option Bool)
    (p : Option PriorityEnum) (df dt : Option Nat)
    (page page_size page2 size2 : Int) :
    (list_tasks store I c p df dt page page_size).total_count
        = (store.filter (listFilter I c p df dt)).length ∧
    (list_tasks store I c p df dt page page_size).total_count
        = (list_tasks store I c p df dt page2 size2).total_count ∧
    ((store.filter (listFilter I c p df dt)).length
        ≤ (list_offset page page_size).toNat →
      (list_tasks store I c p df dt page page_size).tasks = [] ∧
      (list_tasks store I c p df dt page page_size).total_count
        = (store.filter (listFilter I c p df dt)).length) := by
  refine ⟨rfl, rfl, fun h => ⟨?_, rfl⟩⟩
  simp only [list_tasks, sqlSlice]
  rw [List.drop_eq_nil_of_le h, List.take_nil]

/-- Witness for C6: alice has one task; page 5 of size 20 is beyond the last
page, so `tasks` is empty while `total_count` stays 1. -/
theorem pagination_total_count_witness :
    (list_tasks
        [{ id := 1, user_email := "alice@example.com", title := some "T",
           description := none, priority := some PriorityEnum.medium,
           is_completed := some false, due_date := none, completed_at := none,
           created_at := 0, updated_at := 0 }]
        "alice@example.com" none none none none 5 20).tasks = [] ∧
    (list_tasks
        [{ id := 1, user_email := "alice@example.com", title := some "T",
           description := none, priority := some PriorityEnum.medium,
           is_completed := some false, due_date := none, completed_at := none,
           created_at := 0, updated_at := 0 }]
        "alice@example.com" none none none none 5 20).total_count = 1 := by
  have h := (pagination_total_count
      [{ id := 1, user_email := "alice@example.com", title := some "T",
         description := none, priority := some PriorityEnum.medium,
         is_completed := some false, due_date := none, completed_at := none,
         created_at := 0, updated_at := 0 }]
      "alice@example.com" none none none none 5 20 1 1).2.2 (by decide)
  exact ⟨h.1, h.2⟩

set_option maxRecDepth 4000 in
/-- C8 fails as stated: the request schema puts no length bound on `title`,
so a 201-character title passes validation and is persisted verbatim instead
of being rejected with a 422 validation error. -/
theorem title_length_counterexample :
    validateTaskCreate
        { title := some (some (String.mk (List.replicate 201 'a'))),
          description := none, priority := none, due_date := none,
          user_email := none }
      = .ok { title := String.mk (List.replicate 201 'a'), description := none,
              priority := some PriorityEnum.medium, due_date := none } ∧
    200 < (String.mk (List.replicate 201 'a')).length ∧
    ((create_task [] "alice@example.com"
        { title := String.mk (List.replicate 201 'a'), description := none,
          priority := some PriorityEnum.medium, due_date := none } 1 0).2).title
      = some (String.mk (List.replicate 201 'a')) :=
  ⟨rfl, by decide, rfl⟩

/-- C8 (amended): create validation only requires `title` to be present and
non-null; it enforces no maximum length, so a title of any length — including
more than 200 characters — is accepted and stored unchanged, while a missing
title is rejected with a 422 request-validation error.  The 200-character
bound exists only as a column annotation on the model. -/
theorem title_no_length_validation (s : String) (desc : Option (Option String))
    (prio : Option (Option PriorityEnum)) (dd : Option (Option Nat))
    (ue : Option String) (store : List Task) (I : String) (fid now : Nat) :
    validateTaskCreate { title := some (some s), description := desc,
                         priority := prio, due_date := dd, user_email := ue }
      = .ok { title := s, description := desc.join,
              priority := prio.getD (some PriorityEnum.medium),
              due_date := dd.join } ∧
    validateTaskCreate { title := none, description := desc, priority := prio,
                         due_date := dd, user_email := ue }
      = .error .requestValidationError ∧
    statusOf .requestValidationError = 422 ∧
    ((create_task store I
        { title := s, description := desc.join,
          priority := prio.getD (some PriorityEnum.medium), due_date := dd.join }
        fid now).2).title = some s :=
  ⟨rfl, rfl, rfl, rfl⟩

/-- C9: a field present in the update payload with a null value counts as
provided and is applied — a `description: null` body clears the description
and a `title: null` body sets the otherwise-required title to null — while
the fields absent from those payloads are left untouched. -/
theorem update_null_clears_fields (store : List Task) (X : Nat) (I : String)
    (now : Nat) (t : Task) (hf : findTask store X I = some t) :
    update_task store X
        { title := none, description := some none, priority := none,
          due_date := none, is_completed := none } I now
      = .ok (storeReplace store X I { t with description := none, updated_at := now },
             { t with description := none, updated_at := now }) ∧
    update_task store X
        { title := some none, description := none, priority := none,
          due_date := none, is_completed := none } I now
      = .ok (storeReplace store X I { t with title := none, updated_at := now },
             { t with title := none, updated_at := now }) := by
  constructor <;> (simp only [update_task, hf]; rfl)

/-- Witness for C9: a `description: null` update on alice's task clears the
stored description. -/
theorem update_null_clears_fields_witness :
    update_task
        [{ id := 1, user_email := "alice@example.com", title := some "T",
           description := some "old", priority := some PriorityEnum.medium,
           is_completed := some false, due_date := none, completed_at := none,
           created_at := 0, updated_at := 0 }]
        1 { title := none, description := some none, priority := none,
            due_date := none, is_completed := none } "alice@example.com" 4
      = .ok ([{ id := 1, user_email := "alice@example.com", title := some "T",
                description := none, priority := some PriorityEnum.medium,
                is_completed := some false, due_date := none, completed_at := none,
                created_at := 0, updated_at := 4 }],
             { id := 1, user_email := "alice@example.com", title := some "T",
               description := none, priority := some PriorityEnum.medium,
               is_completed := some false, due_date := none, completed_at := none,
               created_at := 0, updated_at := 4 }) :=
  (update_null_clears_fields
      [{ id := 1, user_email := "alice@example.com", title := some "T",
         description := some "old", priority := some PriorityEnum.medium,
         is_completed := some false, due_date := none, completed_at := none,
         created_at := 0, updated_at := 0 }]
      1 "alice@example.com" 4
      { id := 1, user_email := "alice@example.com", title := some "T",
        description := some "old", priority := some PriorityEnum.medium,
        is_completed := some false, due_date := none, completed_at := none,
        created_at := 0, updated_at := 0 }
      rfl).1

/-- C10 fails as stated only in its negativity clause: the handler does
accept every integer `page`/`page_size` and applies the raw offset formula,
but with `page = 0` and `page_size = 0` the computed offset is 0, not
negative. -/
theorem list_offset_counterexample :
    (list_tasks [] "alice@example.com" none none none none 0 0).page = 0 ∧
    (list_tasks [] "alice@example.com" none none none none 0 0).page_size = 0 ∧
    list_offset 0 0 = (0 - 1) * 0 ∧
    ¬ list_offset 0 0 < 0 :=
  ⟨rfl, rfl, rfl, by decide⟩

/-- C10 (amended): list accepts every integer `page` and `page_size` without
validation and never fails on them; the offset handed to the store is always
`(page - 1) * page_size` with no clamping or error in the handler, and for
every `page ≤ 0` with positive `page_size` that offset is negative. -/
theorem list_accepts_all_pages (store : List Task) (I : String) (c : Option Bool)
    (p : Option PriorityEnum) (df dt : Option Nat) (page page_size : Int) :
    list_offset page page_size = (page - 1) * page_size ∧
    (list_tasks store I c p df dt page page_size).page = page ∧
    (list_tasks store I c p df dt page page_size).page_size = page_size ∧
    (list_tasks store I c p df dt page page_size).tasks
      = sqlSlice (store.filter (listFilter I c p df dt))
          ((page - 1) * page_size) page_size ∧
    (page ≤ 0 → 0 < page_size → (page - 1) * page_size < 0) := by
  refine ⟨rfl, rfl, rfl, rfl, fun h1 h2 => ?_⟩
  have hneg : page - 1 < 0 := by omega
  exact mul_neg_of_neg_of_pos hneg h2

/-- Witness for C10 (amended): page 0 with the default page size 20 is
accepted and produces the negative offset -20. -/
theorem list_accepts_all_pages_witness :
    list_offset 0 20 = (0 - 1) * 20 ∧ ((0 : Int) - 1) * 20 < 0 :=
  ⟨(list_accepts_all_pages [] "alice@example.com" none none none none 0 20).1,
   (list_accepts_all_pages [] "alice@example.com" none none none none 0 20).2.2.2.2
     (by decide) (by decide)⟩

end Todo
